import Mathlib

/-!
Shallow embedding of the CapturGo balance-accrual / claim-to-mint core
(src/components/EditProfile.tsx, src/components/Rewards.tsx).

Modelling conventions:
- JavaScript numbers are modelled as rationals (ℚ); `Math.round` is
  Mathlib's `round : ℚ → ℤ` (both compute `⌊x + 1/2⌋`).
- Decimal strings held in AsyncStorage or passed to `mint` are modelled by
  the rational value they denote; the AsyncStorage cell for the key
  `captur_token_balance` is an `Option ℚ` (`none` = no value stored), so
  `parseFloat` on a stored value is the identity.
- Asynchronous external calls (supabase reads/writes, the mint
  transaction) are modelled by boolean failure flags in an environment
  record; a failed write performs no mutation.
- Performed external effects are collected in an event trace so that
  claims about "no write happened" and about ordering can be stated.
-/

namespace CapturGo

/-! ## Definitions -/

/-! ### Wallet address validation (EditProfile.tsx lines 193-198) -/

/-- Character class `[a-fA-F0-9]` of the regex in `validateWalletAddress`
(EditProfile.tsx line 197). -/
def isHexDigit (c : Char) : Bool :=
  ('0' ≤ c && c ≤ '9') || ('a' ≤ c && c ≤ 'f') || ('A' ≤ c && c ≤ 'F')

/-- Model of `validateWalletAddress` (EditProfile.tsx lines 194-198):
returns false for a falsy (empty) input, otherwise tests the string
against `^0x[a-fA-F0-9]{40}$`. -/
def validateWalletAddress (address : String) : Bool :=
  if address = "" then false
  else
    match address.data with
    | '0' :: 'x' :: rest => rest.length == 40 && rest.all isHexDigit
    | _ => false

/-- Spec-side reading of one case-insensitive hexadecimal character:
membership in the twenty-two hex digit characters.  Written from the
spec's words, to be compared with the source-derived `isHexDigit`. -/
def SpecHexChar (c : Char) : Prop :=
  c ∈ ['A', 'B', 'C', 'D', 'E', 'F',
       'a', 'b', 'c', 'd', 'e', 'f',
       '0', '1', '2', '3', '4', '5', '6', '7', '8', '9']

/-- Spec-side reading of the pattern `^0x[hex]{40}$` (case-insensitive):
the literal two characters `0x` followed by exactly forty case-insensitive
hexadecimal characters. -/
def SpecAddressPattern (s : String) : Prop :=
  ∃ rest : List Char,
    s.data = '0' :: 'x' :: rest ∧ rest.length = 40 ∧ ∀ c ∈ rest, SpecHexChar c

/-! ### Claim pipeline (EditProfile.tsx, Claim button onPress, lines 337-387)

The handler runs a sequence of awaited external effects.  The environment
fixes the outcome of each external call; the handler is then a pure
function producing the performed effects (an event trace), the surfaced
error or success, and the final contents of the two balance stores. -/

/-- Errors surfaced by the claim handler, one constructor per `throw` /
`setError` site of the onPress handler:
`noUser` = "No user found" (line 344); `syncErr` = a rejected sync update
(line 354); `readErr` = a rejected balance select (line 362);
`nothingToClaim` = "No balance to claim." (line 365); `unsupportedChain` =
"Only Base chain is supported for claiming tokens at the moment."
(line 370); `mintErr` = a rejected `mintTokensToUser` (line 373);
`zeroRemoteErr` = a rejected zero-update (line 379); `zeroLocalErr` = a
rejected `AsyncStorage.setItem` (line 380). -/
inductive ClaimErr
  | noUser
  | syncErr
  | readErr
  | nothingToClaim
  | unsupportedChain
  | mintErr
  | zeroRemoteErr
  | zeroLocalErr
  deriving DecidableEq, Repr

/-- Externally visible effects performed by the claim handler.
`syncWrite a` = successful `update({ token_balance: a })` (line 352);
`mintCall addr a` = a `mintTokensToUser(addr, a.toString())` submission
(line 373), with the decimal amount string modelled by the rational it
denotes; `remoteZero` = successful `update({ token_balance: 0 })`
(line 377); `localZero` = successful
`AsyncStorage.setItem('captur_token_balance', '0')` (line 380). -/
inductive Event
  | syncWrite (amount : ℚ)
  | mintCall (addr : String) (amount : ℚ)
  | remoteZero
  | localZero
  deriving DecidableEq, Repr

/-- Whether an event is a mint submission. -/
def Event.isMintCall : Event → Bool
  | Event.mintCall _ _ => true
  | _ => false

/-- Whether an event is the sync-up write of step 2. -/
def Event.isSyncWrite : Event → Bool
  | Event.syncWrite _ => true
  | _ => false

/-- Environment of one claim invocation: the authenticated user, the two
balance stores, the outcome of each external call, and the two pieces of
component state the handler reads (`cryptoChain`, `walletAddress`).
`localStored` is the AsyncStorage cell for key `captur_token_balance`.
`remoteBalance` is the `token_balance` field of the user's `profiles` row
(`none` = SQL null); `rowExists` says whether that row exists at all (if
it does not, the `.single()` select rejects and the sync update matches
zero rows). -/
structure ClaimEnv where
  user : Option String
  localStored : Option ℚ
  rowExists : Bool
  remoteBalance : Option ℚ
  syncFails : Bool
  readFails : Bool
  mintFails : Bool
  zeroRemoteFails : Bool
  zeroLocalFails : Bool
  cryptoChain : String
  walletAddress : String
  deriving DecidableEq, Repr

/-- Result of one claim invocation: the trace of performed effects in
order, the surfaced error (if any), whether the success message was set,
and the final contents of the two balance stores. -/
structure ClaimResult where
  events : List Event
  error : Option ClaimErr
  success : Bool
  remoteBalance : Option ℚ
  localStored : Option ℚ
  deriving DecidableEq, Repr

/-- Model of `const localBalance = localBalanceStr ? parseFloat(localBalanceStr) : 0`
(EditProfile.tsx line 347): the stored rational, or 0 when nothing is
stored. -/
def localBalance (env : ClaimEnv) : ℚ :=
  env.localStored.getD 0

/-- Contents of the remote `token_balance` field after the sync-up step
(EditProfile.tsx lines 349-355): when the local balance is positive and
the sync update went through against an existing row, the field holds
exactly the local balance (a blind overwrite); otherwise it is
unchanged. -/
def remoteAfterSync (env : ClaimEnv) : Option ℚ :=
  if 0 < localBalance env ∧ env.rowExists = true ∧ env.syncFails = false then
    some (localBalance env)
  else env.remoteBalance

/-- Model of the Claim button onPress handler (EditProfile.tsx lines
337-387), one branch per awaited step, in source order: resolve the user
(line 343); read the local balance (lines 346-347); if it is positive,
sync it to the remote `token_balance` (lines 349-355, a rejected update
throws); re-read the remote balance (lines 357-362, `.single()` rejects
when the row is missing); a null or non-positive balance sets "No balance
to claim." and returns (lines 363-367); a chain other than `"Base"` sets
the unsupported-chain error and returns (lines 369-372); submit the mint
with the wallet address and the balance (line 373); on mint success write
the remote balance to 0 (lines 375-379), then the local balance to 0
(line 380).  Any rejection is caught (line 382) and surfaced, leaving the
remaining steps unexecuted. -/
def claimOnPress (env : ClaimEnv) : ClaimResult :=
  match env.user with
  | none =>
      { events := [], error := some ClaimErr.noUser, success := false,
        remoteBalance := env.remoteBalance, localStored := env.localStored }
  | some _ =>
      if 0 < localBalance env ∧ env.syncFails = true then
        { events := [], error := some ClaimErr.syncErr, success := false,
          remoteBalance := env.remoteBalance, localStored := env.localStored }
      else
        let preEvents : List Event :=
          if 0 < localBalance env then [Event.syncWrite (localBalance env)] else []
        let remote1 : Option ℚ := remoteAfterSync env
        if env.readFails = true ∨ env.rowExists = false then
          { events := preEvents, error := some ClaimErr.readErr, success := false,
            remoteBalance := remote1, localStored := env.localStored }
        else
          match remote1 with
          | none =>
              { events := preEvents, error := some ClaimErr.nothingToClaim,
                success := false, remoteBalance := none,
                localStored := env.localStored }
          | some balance =>
              if balance ≤ 0 then
                { events := preEvents, error := some ClaimErr.nothingToClaim,
                  success := false, remoteBalance := some balance,
                  localStored := env.localStored }
              else if env.cryptoChain ≠ "Base" then
                { events := preEvents, error := some ClaimErr.unsupportedChain,
                  success := false, remoteBalance := some balance,
                  localStored := env.localStored }
              else
                let mintEvents := preEvents ++ [Event.mintCall env.walletAddress balance]
                if env.mintFails = true then
                  { events := mintEvents, error := some ClaimErr.mintErr,
                    success := false, remoteBalance := some balance,
                    localStored := env.localStored }
                else if env.zeroRemoteFails = true then
                  { events := mintEvents, error := some ClaimErr.zeroRemoteErr,
                    success := false, remoteBalance := some balance,
                    localStored := env.localStored }
                else if env.zeroLocalFails = true then
                  { events := mintEvents ++ [Event.remoteZero],
                    error := some ClaimErr.zeroLocalErr, success := false,
                    remoteBalance := some 0, localStored := env.localStored }
                else
                  { events := mintEvents ++ [Event.remoteZero, Event.localZero],
                    error := none, success := true,
                    remoteBalance := some 0, localStored := some 0 }

/-- Values the `cryptoChain` state variable can take across the life of
the EditProfile screen: its initializer `useState('Base')` (line 46) and
the two assignments `setCryptoChain('Base')` in `getProfile` (lines 116
and 120).  No other assignment to this state exists in the source. -/
inductive CryptoChainReachable : String → Prop
  | init : CryptoChainReachable "Base"
  | loadedProfile : CryptoChainReachable "Base"
  | loadedDefault : CryptoChainReachable "Base"

/-! ### Reentrancy guard (EditProfile.tsx lines 51, 335-396)

The `claiming` flag is set at the start of the onPress handler (line 338),
cleared in its `finally` (line 385), and the Claim button carries
`disabled={claiming}` (line 388).  Under the platform's single-threaded,
run-to-completion event model, a tap is dispatched and the flag update
flushed before the next tap is processed, so checking `disabled` and
setting the flag form one atomic step. -/

/-- Guard-relevant state of the EditProfile screen: the `claiming` flag
and the number of onPress handler invocations started but not yet
finished. -/
structure ClaimUIState where
  claiming : Bool
  inFlight : Nat
  deriving DecidableEq, Repr

/-- Steps of the claim UI: a tap on the enabled button starts a handler
and sets the flag (lines 338, 388); a tap on the disabled button does
nothing (line 388); a running handler finishes and clears the flag in its
`finally` (line 385). -/
inductive ClaimUIStep : ClaimUIState → ClaimUIState → Prop
  | press (s : ClaimUIState) (h : s.claiming = false) :
      ClaimUIStep s { claiming := true, inFlight := s.inFlight + 1 }
  | pressDisabled (s : ClaimUIState) (h : s.claiming = true) : ClaimUIStep s s
  | finish (s : ClaimUIState) (h : 0 < s.inFlight) :
      ClaimUIStep s { claiming := false, inFlight := s.inFlight - 1 }

/-- States reachable from the initial state `useState(false)` (line 51)
by claim UI steps. -/
inductive ClaimUIReachable : ClaimUIState → Prop
  | init : ClaimUIReachable { claiming := false, inFlight := 0 }
  | step {s t : ClaimUIState} :
      ClaimUIReachable s → ClaimUIStep s t → ClaimUIReachable t

/-! ### Local accumulator (Rewards.tsx lines 111-124) -/

/-- Model of the per-tick draw
`Math.random() * (0.1 - 0.01) + 0.01` (Rewards.tsx line 115), as a
function of the `Math.random()` result `r ∈ [0, 1)`. -/
def tickIncrement (r : ℚ) : ℚ := r * (1/10 - 1/100) + 1/100

/-- Model of the balance update
`Math.round((prevBalance + increment) * 100) / 100` (Rewards.tsx
line 118). -/
def tickBalance (prevBalance increment : ℚ) : ℚ :=
  ((round ((prevBalance + increment) * 100) : ℤ) : ℚ) / 100

/-- Balance after a sequence of accumulator ticks, one per element of the
list of `Math.random()` draws, starting from balance `b` (the setInterval
callback of Rewards.tsx lines 113-124 applied once per tick). -/
def runTicks (b : ℚ) : List ℚ → ℚ
  | [] => b
  | r :: rs => runTicks (tickBalance b (tickIncrement r)) rs

/-- Rounding to 2 decimal places, the spec's `round2`. -/
def round2 (x : ℚ) : ℚ := ((round (x * 100) : ℤ) : ℚ) / 100

/-! ### Local persisted keys (Rewards.tsx lines 23-27, EditProfile.tsx
lines 12-16, 346, 380) -/

namespace Rewards

/-- The `STORAGE_KEYS.LOCATION_SHARING` constant of Rewards.tsx
(line 25). -/
def STORAGE_KEYS_LOCATION_SHARING : String := "captur_location_sharing"

/-- The `STORAGE_KEYS.CAPT_BALANCE` constant of Rewards.tsx (line 26). -/
def STORAGE_KEYS_CAPT_BALANCE : String := "captur_token_balance"

end Rewards

namespace EditProfile

/-- The `STORAGE_KEYS.LOCATION_SHARING` constant of EditProfile.tsx
(line 14), declared under the comment "Storage keys from Rewards
component". -/
def STORAGE_KEYS_LOCATION_SHARING : String := "location_sharing_enabled"

/-- The `STORAGE_KEYS.CAPT_BALANCE` constant of EditProfile.tsx
(line 15). -/
def STORAGE_KEYS_CAPT_BALANCE : String := "capt_balance"

/-- The string literal used for the balance key by the claim handler
(EditProfile.tsx lines 346 and 380), bypassing `STORAGE_KEYS`. -/
def claimBalanceKey : String := "captur_token_balance"

end EditProfile

/-- AsyncStorage write: `AsyncStorage.setItem(k, v)` over a key-value
store modelled as a function from keys to optional values. -/
def asyncSetItem (store : String → Option String) (k v : String) :
    String → Option String :=
  fun q => if q = k then some v else store q

/-- Model of the Rewards screen persisting the location-sharing flag
(Rewards.tsx line 96): `setItem(STORAGE_KEYS.LOCATION_SHARING,
isLocationSharingEnabled.toString())`. -/
def rewardsSaveLocationSharing (store : String → Option String)
    (enabled : Bool) : String → Option String :=
  asyncSetItem store Rewards.STORAGE_KEYS_LOCATION_SHARING
    (if enabled then "true" else "false")

/-- Model of the EditProfile startup load of the location-sharing flag
(EditProfile.tsx lines 70-84): read its own `STORAGE_KEYS.LOCATION_SHARING`
key, compare against `'true'`, and default to true when nothing is
stored. -/
def editProfileLoadLocationSharing (store : String → Option String) : Bool :=
  match store EditProfile.STORAGE_KEYS_LOCATION_SHARING with
  | some v => v == "true"
  | none => true

/-! ### Profile editor (EditProfile.tsx, `updateProfile`, lines 130-182) -/

/-- The editable profile form fields gathered into the `updates` record
(EditProfile.tsx lines 145-155). -/
structure ProfileForm where
  username : String
  email : String
  age_range : String
  gender : String
  commute_mode : String
  crypto_chain : String
  wallet_address : String
  deriving DecidableEq, Repr

/-- Externally visible effects of `updateProfile`: a successful
`upsert(updates)` keyed by the user id (lines 157-159), and an email
change request `auth.updateUser({ email })` (lines 166-169). -/
inductive UpdateEvent
  | upsert (id : String) (form : ProfileForm)
  | emailChangeRequest (newEmail : String)
  deriving DecidableEq, Repr

/-- Errors surfaced by `updateProfile`: `validationErr` = "Username is
required" (line 137); `noUser` = "No user found" (line 143); `upsertErr`
= a rejected upsert (line 161); `emailChangeErr` = "Profile updated but
email change requires verification" (line 172). -/
inductive UpdateErr
  | validationErr
  | noUser
  | upsertErr
  | emailChangeErr
  deriving DecidableEq, Repr

/-- Environment of one `updateProfile` invocation: the form state, the
authenticated user as an (id, email) pair, and the outcomes of the two
external calls. -/
structure UpdateEnv where
  form : ProfileForm
  user : Option (String × String)
  upsertFails : Bool
  emailUpdateFails : Bool
  deriving DecidableEq, Repr

/-- Result of one `updateProfile` invocation. -/
structure UpdateResult where
  events : List UpdateEvent
  error : Option UpdateErr
  success : Bool
  deriving DecidableEq, Repr

/-- Model of JavaScript `String.prototype.trim`: drop whitespace from
both ends of the character list. -/
def trimString (s : String) : String :=
  ⟨((s.data.dropWhile Char.isWhitespace).reverse.dropWhile
      Char.isWhitespace).reverse⟩

/-- Model of `updateProfile` (EditProfile.tsx lines 130-182): a blank
trimmed username sets "Username is required" and returns before any
remote call (lines 136-139); a missing user throws (line 143); the upsert
of all form fields keyed by the user id runs next (lines 145-161, a
rejected upsert throws); only then, if the form email differs from the
authenticated email, an email change request is issued (lines 166-176),
whose own failure changes the message but not the committed upsert. -/
def updateProfile (env : UpdateEnv) : UpdateResult :=
  if trimString env.form.username = "" then
    { events := [], error := some UpdateErr.validationErr, success := false }
  else
    match env.user with
    | none => { events := [], error := some UpdateErr.noUser, success := false }
    | some (uid, uemail) =>
        if env.upsertFails = true then
          { events := [], error := some UpdateErr.upsertErr, success := false }
        else
          let ev1 := [UpdateEvent.upsert uid env.form]
          if env.form.email ≠ uemail then
            if env.emailUpdateFails = true then
              { events := ev1 ++ [UpdateEvent.emailChangeRequest env.form.email],
                error := some UpdateErr.emailChangeErr, success := true }
            else
              { events := ev1 ++ [UpdateEvent.emailChangeRequest env.form.email],
                error := none, success := true }
          else { events := ev1, error := none, success := true }

/-! ### Concrete environments used by the witnesses -/

/-- Claim environment in which every external call succeeds and the
balance read back is 12.34. -/
def claimSuccessEnv : ClaimEnv :=
  { user := some "user-1", localStored := some (1234/100), rowExists := true,
    remoteBalance := some 0, syncFails := false, readFails := false,
    mintFails := false, zeroRemoteFails := false, zeroLocalFails := false,
    cryptoChain := "Base",
    walletAddress := "0xABab1234567890abcdef1234567890ABCDEF1234" }

/-- Claim environment with nothing stored locally and a remote balance of
0. -/
def claimNothingEnv : ClaimEnv :=
  { user := some "user-1", localStored := none, rowExists := true,
    remoteBalance := some 0, syncFails := false, readFails := false,
    mintFails := false, zeroRemoteFails := false, zeroLocalFails := false,
    cryptoChain := "Base",
    walletAddress := "0xABab1234567890abcdef1234567890ABCDEF1234" }

/-- Claim environment in which the mint submission rejects. -/
def claimMintFailEnv : ClaimEnv :=
  { user := some "user-1", localStored := some (1234/100), rowExists := true,
    remoteBalance := some 0, syncFails := false, readFails := false,
    mintFails := true, zeroRemoteFails := false, zeroLocalFails := false,
    cryptoChain := "Base",
    walletAddress := "0xABab1234567890abcdef1234567890ABCDEF1234" }

/-- Profile-save environment whose username is whitespace-only. -/
def updateEnvBlank : UpdateEnv :=
  { form := { username := "   ", email := "a@b.example", age_range := "18-25",
              gender := "Other", commute_mode := "Bike", crypto_chain := "Base",
              wallet_address := "" },
    user := some ("id-1", "a@b.example"),
    upsertFails := false, emailUpdateFails := false }

/-! ## Theorems -/

theorem isHexDigit_iff_specHexChar (c : Char) :
    isHexDigit c = true ↔ SpecHexChar c := by
  constructor
  · intro h
    simp only [isHexDigit, Bool.or_eq_true, Bool.and_eq_true, decide_eq_true_eq] at h
    simp only [SpecHexChar, List.mem_cons, List.not_mem_nil, or_false]
    rw [← Char.ofNat_toNat c]
    obtain ⟨n, hn⟩ : ∃ n, c.toNat = n := ⟨_, rfl⟩
    rw [hn]
    rcases h with (⟨h1, h2⟩ | ⟨h1, h2⟩) | ⟨h1, h2⟩
    · have l : 48 ≤ n := by rw [← hn]; exact h1
      have u : n ≤ 57 := by rw [← hn]; exact h2
      clear hn h1 h2
      interval_cases n <;> decide
    · have l : 97 ≤ n := by rw [← hn]; exact h1
      have u : n ≤ 102 := by rw [← hn]; exact h2
      clear hn h1 h2
      interval_cases n <;> decide
    · have l : 65 ≤ n := by rw [← hn]; exact h1
      have u : n ≤ 70 := by rw [← hn]; exact h2
      clear hn h1 h2
      interval_cases n <;> decide
  · intro h
    rw [SpecHexChar] at h
    fin_cases h <;> decide

/-- Claim C1: the wallet address validator returns false for the empty
string, and for every string it returns true exactly when the string is
the literal `0x` followed by exactly forty case-insensitive hexadecimal
characters; every other string yields false. -/
theorem validateWalletAddress_correct :
    validateWalletAddress "" = false ∧
    ∀ s : String, validateWalletAddress s = true ↔ SpecAddressPattern s := by
  refine ⟨rfl, fun s => ?_⟩
  constructor
  · intro h
    simp only [validateWalletAddress] at h
    split at h
    · exact absurd h (by simp)
    · split at h
      · rename_i rest heq
        refine ⟨rest, heq, ?_, ?_⟩
        · have := (Bool.and_eq_true _ _).mp h |>.1
          simpa using this
        · intro c hc
          have hall := (Bool.and_eq_true _ _).mp h |>.2
          exact (isHexDigit_iff_specHexChar c).mp (List.all_eq_true.mp hall c hc)
      · exact absurd h (by simp)
  · rintro ⟨rest, heq, hlen, hhex⟩
    have hne : s ≠ "" := by
      intro h0
      rw [h0] at heq
      simp at heq
    simp only [validateWalletAddress, if_neg hne]
    rw [heq]
    refine (Bool.and_eq_true _ _).mpr ⟨by simp [hlen], ?_⟩
    exact List.all_eq_true.mpr fun c hc => (isHexDigit_iff_specHexChar c).mpr (hhex c hc)

/-- Claim C2: when the user exists, the balance read back after sync is a
positive `b`, the wallet address passes validation, the chain is `"Base"`
and every external call succeeds, the handler performs exactly one mint
call with the wallet address and amount `b`, then writes the remote
balance to 0 and the local balance to 0 in that order, so both balances
end at exactly 0 and no error is surfaced. -/
theorem claim_success_mints_once (env : ClaimEnv) (u : String) (b : ℚ)
    (hu : env.user = some u)
    (_hv : validateWalletAddress env.walletAddress = true)
    (hsync : env.syncFails = false)
    (hread : env.readFails = false)
    (hrow : env.rowExists = true)
    (hbal : remoteAfterSync env = some b)
    (hpos : 0 < b)
    (hchain : env.cryptoChain = "Base")
    (hmint : env.mintFails = false)
    (hzr : env.zeroRemoteFails = false)
    (hzl : env.zeroLocalFails = false) :
    claimOnPress env =
      { events := (if 0 < localBalance env
                     then [Event.syncWrite (localBalance env)] else []) ++
                  [Event.mintCall env.walletAddress b, Event.remoteZero,
                   Event.localZero],
        error := none, success := true,
        remoteBalance := some 0, localStored := some 0 } ∧
    (claimOnPress env).events.filter Event.isMintCall =
      [Event.mintCall env.walletAddress b] := by
  have hres : claimOnPress env =
      { events := (if 0 < localBalance env
                     then [Event.syncWrite (localBalance env)] else []) ++
                  [Event.mintCall env.walletAddress b, Event.remoteZero,
                   Event.localZero],
        error := none, success := true,
        remoteBalance := some 0, localStored := some 0 } := by
    simp only [claimOnPress, hu, hsync, hread, hrow, hbal, hchain, hmint, hzr, hzl,
      not_le.mpr hpos, and_false, if_false, false_or, Bool.false_eq_true, or_self,
      ne_eq, not_true_eq_false, if_neg (not_le.mpr hpos)]
    simp
  refine ⟨hres, ?_⟩
  rw [hres]
  by_cases hlb : 0 < localBalance env <;>
    simp [hlb, List.filter_append, Event.isMintCall]

/-- Witness for C2 at the spec's example balance 12.34. -/
theorem claim_success_mints_once_witness :
    validateWalletAddress claimSuccessEnv.walletAddress = true ∧
    remoteAfterSync claimSuccessEnv = some (1234/100) ∧ (0:ℚ) < 1234/100 ∧
    (claimOnPress claimSuccessEnv =
      { events := (if 0 < localBalance claimSuccessEnv
                     then [Event.syncWrite (localBalance claimSuccessEnv)] else []) ++
                  [Event.mintCall claimSuccessEnv.walletAddress (1234/100),
                   Event.remoteZero, Event.localZero],
        error := none, success := true,
        remoteBalance := some 0, localStored := some 0 } ∧
    (claimOnPress claimSuccessEnv).events.filter Event.isMintCall =
      [Event.mintCall claimSuccessEnv.walletAddress (1234/100)]) :=
  ⟨by decide, by norm_num [remoteAfterSync, claimSuccessEnv, localBalance],
   by norm_num,
   claim_success_mints_once claimSuccessEnv "user-1" (1234/100) rfl (by decide)
     rfl rfl rfl
     (by norm_num [remoteAfterSync, claimSuccessEnv, localBalance])
     (by norm_num) rfl rfl rfl rfl⟩

/-- Claim C3: when the balance read back from the remote store is absent
or non-positive, the handler surfaces the NothingToClaim error, performs
no mint call and no zero-write to either balance, and leaves both stores
as they were after the sync step. -/
theorem claim_nothing_to_claim (env : ClaimEnv) (u : String)
    (hu : env.user = some u)
    (hnosync : ¬(0 < localBalance env ∧ env.syncFails = true))
    (hread : env.readFails = false) (hrow : env.rowExists = true)
    (hbal : ∀ b : ℚ, remoteAfterSync env = some b → b ≤ 0) :
    (claimOnPress env).error = some ClaimErr.nothingToClaim ∧
    (claimOnPress env).events.filter Event.isMintCall = [] ∧
    Event.remoteZero ∉ (claimOnPress env).events ∧
    Event.localZero ∉ (claimOnPress env).events ∧
    (claimOnPress env).localStored = env.localStored ∧
    (claimOnPress env).remoteBalance = remoteAfterSync env := by
  have hlb : ¬ (0 < localBalance env) := by
    intro hpos
    have hs : env.syncFails = false := by
      by_cases h : env.syncFails = true
      · exact absurd ⟨hpos, h⟩ hnosync
      · simpa using h
    have : remoteAfterSync env = some (localBalance env) := by
      simp [remoteAfterSync, hpos, hrow, hs]
    exact absurd hpos (not_lt.mpr (hbal _ this))
  have hpre : remoteAfterSync env = env.remoteBalance := by
    simp [remoteAfterSync, hlb]
  rcases hcase : env.remoteBalance with _ | b
  · simp [claimOnPress, hu, hnosync, hread, hrow, hlb, hpre, hcase]
  · have hble : b ≤ 0 := hbal b (hpre.trans hcase)
    simp [claimOnPress, hu, hnosync, hread, hrow, hlb, hpre, hcase, hble]

/-- Witness for C3 at a remote balance of 0 and an empty local store. -/
theorem claim_nothing_to_claim_witness :
    (∀ b : ℚ, remoteAfterSync claimNothingEnv = some b → b ≤ 0) ∧
    ((claimOnPress claimNothingEnv).error = some ClaimErr.nothingToClaim ∧
     (claimOnPress claimNothingEnv).events.filter Event.isMintCall = [] ∧
     Event.remoteZero ∉ (claimOnPress claimNothingEnv).events ∧
     Event.localZero ∉ (claimOnPress claimNothingEnv).events ∧
     (claimOnPress claimNothingEnv).localStored = claimNothingEnv.localStored ∧
     (claimOnPress claimNothingEnv).remoteBalance =
       remoteAfterSync claimNothingEnv) :=
  have hbal : ∀ b : ℚ, remoteAfterSync claimNothingEnv = some b → b ≤ 0 := by
    intro b hb
    simp [remoteAfterSync, claimNothingEnv, localBalance] at hb
    simp [← hb]
  ⟨hbal, claim_nothing_to_claim claimNothingEnv "user-1" rfl
    (by simp [localBalance, claimNothingEnv]) rfl rfl hbal⟩

/-- Claim C4: the sync-up step writes the local balance to the remote
`token_balance` exactly when the local balance is strictly positive, and
that write is a blind overwrite: whatever the previous remote value, the
field afterwards holds exactly the local balance, not the sum.  When the
local balance is 0 or negative no sync write occurs and the remote value
is untouched. -/
theorem claim_sync_up (env : ClaimEnv) (u : String)
    (hu : env.user = some u) (hsync : env.syncFails = false) :
    (0 < localBalance env →
       (claimOnPress env).events.filter Event.isSyncWrite =
         [Event.syncWrite (localBalance env)] ∧
       (env.rowExists = true → ∀ r : Option ℚ,
          remoteAfterSync { env with remoteBalance := r } =
            some (localBalance env))) ∧
    (localBalance env ≤ 0 →
       (claimOnPress env).events.filter Event.isSyncWrite = [] ∧
       remoteAfterSync env = env.remoteBalance) := by
  constructor
  · intro hlb
    constructor
    · have hns : ¬(0 < localBalance env ∧ env.syncFails = true) := by simp [hsync]
      simp only [claimOnPress, hu, if_neg hns, if_pos hlb]
      by_cases hr : env.readFails = true ∨ env.rowExists = false
      · simp [hr, Event.isSyncWrite]
      · simp only [if_neg hr]
        rcases hrem : remoteAfterSync env with _ | b
        · simp [Event.isSyncWrite]
        · by_cases hb : b ≤ 0
          · simp [hb, Event.isSyncWrite]
          · by_cases hc : env.cryptoChain ≠ "Base"
            · simp [hc, hb, Event.isSyncWrite]
            · simp only [if_neg hb, if_neg hc]
              by_cases hm : env.mintFails = true
              · simp [hm, Event.isSyncWrite]
              · by_cases hzr : env.zeroRemoteFails = true
                · simp [hm, hzr, Event.isSyncWrite]
                · by_cases hzl : env.zeroLocalFails = true <;>
                    simp [hm, hzr, hzl, Event.isSyncWrite]
    · intro hrow r
      exact if_pos ⟨hlb, hrow, hsync⟩
  · intro hle
    have hlb : ¬ (0 < localBalance env) := not_lt.mpr hle
    have hns : ¬(0 < localBalance env ∧ env.syncFails = true) := by simp [hlb]
    refine ⟨?_, by simp [remoteAfterSync, hlb]⟩
    simp only [claimOnPress, hu, if_neg hns, if_neg hlb]
    by_cases hr : env.readFails = true ∨ env.rowExists = false
    · simp [hr, Event.isSyncWrite]
    · simp only [if_neg hr]
      rcases hrem : remoteAfterSync env with _ | b
      · simp [Event.isSyncWrite]
      · by_cases hb : b ≤ 0
        · simp [hb, Event.isSyncWrite]
        · by_cases hc : env.cryptoChain ≠ "Base"
          · simp [hc, hb, Event.isSyncWrite]
          · simp only [if_neg hb, if_neg hc]
            by_cases hm : env.mintFails = true
            · simp [hm, Event.isSyncWrite]
            · by_cases hzr : env.zeroRemoteFails = true
              · simp [hm, hzr, Event.isSyncWrite]
              · by_cases hzl : env.zeroLocalFails = true <;>
                  simp [hm, hzr, hzl, Event.isSyncWrite]

/-- Witness for C4 at a positive local balance of 12.34. -/
theorem claim_sync_up_witness :
    0 < localBalance claimSuccessEnv ∧
    ((claimOnPress claimSuccessEnv).events.filter Event.isSyncWrite =
       [Event.syncWrite (localBalance claimSuccessEnv)] ∧
     (claimSuccessEnv.rowExists = true → ∀ r : Option ℚ,
        remoteAfterSync { claimSuccessEnv with remoteBalance := r } =
          some (localBalance claimSuccessEnv))) :=
  have hlb : 0 < localBalance claimSuccessEnv := by
    norm_num [localBalance, claimSuccessEnv]
  ⟨hlb, (claim_sync_up claimSuccessEnv "user-1" rfl rfl).1 hlb⟩

/-- Claim C5: every failing step short-circuits the rest of the pipeline,
so no balance write belonging to a later step is performed: a missing
user or a failed sync write performs no effect at all; a failed remote
read performs no mint and no zero-write; an absent or non-positive
authoritative balance (the NothingToClaim failure) performs no mint and
no zero-write; an unsupported chain performs no mint and no zero-write;
a mint failure performs no zero-write, leaving the remote balance at the
value the sync step wrote and the local balance unchanged; a failed
remote zero-write leaves the local balance unchanged; and whenever any
error is surfaced the local balance write of the final step has not
happened. -/
theorem claim_short_circuit (env : ClaimEnv) :
    (env.user = none →
       claimOnPress env =
         { events := [], error := some ClaimErr.noUser, success := false,
           remoteBalance := env.remoteBalance, localStored := env.localStored }) ∧
    (env.user ≠ none → 0 < localBalance env → env.syncFails = true →
       claimOnPress env =
         { events := [], error := some ClaimErr.syncErr, success := false,
           remoteBalance := env.remoteBalance, localStored := env.localStored }) ∧
    (env.user ≠ none → ¬(0 < localBalance env ∧ env.syncFails = true) →
       (env.readFails = true ∨ env.rowExists = false) →
       (claimOnPress env).events.filter Event.isMintCall = [] ∧
       Event.remoteZero ∉ (claimOnPress env).events ∧
       Event.localZero ∉ (claimOnPress env).events ∧
       (claimOnPress env).localStored = env.localStored ∧
       (claimOnPress env).error = some ClaimErr.readErr) ∧
    (env.user ≠ none → ¬(0 < localBalance env ∧ env.syncFails = true) →
       env.readFails = false → env.rowExists = true →
       (∀ b : ℚ, remoteAfterSync env = some b → b ≤ 0) →
       (claimOnPress env).events.filter Event.isMintCall = [] ∧
       Event.remoteZero ∉ (claimOnPress env).events ∧
       Event.localZero ∉ (claimOnPress env).events ∧
       (claimOnPress env).remoteBalance = remoteAfterSync env ∧
       (claimOnPress env).localStored = env.localStored ∧
       (claimOnPress env).error = some ClaimErr.nothingToClaim) ∧
    (∀ b : ℚ, env.user ≠ none → ¬(0 < localBalance env ∧ env.syncFails = true) →
       env.readFails = false → env.rowExists = true →
       remoteAfterSync env = some b → 0 < b → env.cryptoChain ≠ "Base" →
       (claimOnPress env).events.filter Event.isMintCall = [] ∧
       Event.remoteZero ∉ (claimOnPress env).events ∧
       Event.localZero ∉ (claimOnPress env).events ∧
       (claimOnPress env).remoteBalance = remoteAfterSync env ∧
       (claimOnPress env).localStored = env.localStored ∧
       (claimOnPress env).error = some ClaimErr.unsupportedChain) ∧
    (∀ b : ℚ, env.user ≠ none → env.syncFails = false → env.readFails = false →
       env.rowExists = true → remoteAfterSync env = some b → 0 < b →
       env.cryptoChain = "Base" → env.mintFails = true →
       (claimOnPress env).events.filter Event.isMintCall =
         [Event.mintCall env.walletAddress b] ∧
       Event.remoteZero ∉ (claimOnPress env).events ∧
       Event.localZero ∉ (claimOnPress env).events ∧
       (claimOnPress env).remoteBalance = remoteAfterSync env ∧
       (claimOnPress env).localStored = env.localStored ∧
       (claimOnPress env).error = some ClaimErr.mintErr) ∧
    (∀ b : ℚ, env.user ≠ none → env.syncFails = false → env.readFails = false →
       env.rowExists = true → remoteAfterSync env = some b → 0 < b →
       env.cryptoChain = "Base" → env.mintFails = false →
       env.zeroRemoteFails = true →
       Event.remoteZero ∉ (claimOnPress env).events ∧
       Event.localZero ∉ (claimOnPress env).events ∧
       (claimOnPress env).remoteBalance = remoteAfterSync env ∧
       (claimOnPress env).localStored = env.localStored) ∧
    ((claimOnPress env).error ≠ none →
       Event.localZero ∉ (claimOnPress env).events ∧
       (claimOnPress env).localStored = env.localStored) := by
  refine ⟨?_, ?_, ?_, ?_, ?_, ?_, ?_, ?_⟩
  · intro hu
    simp [claimOnPress, hu]
  · intro hu hlb hs
    rcases henv : env.user with _ | u
    · exact absurd henv hu
    · simp [claimOnPress, henv, hlb, hs]
  · intro hu hns hr
    rcases henv : env.user with _ | u
    · exact absurd henv hu
    · by_cases hlb : 0 < localBalance env
      · have hs : env.syncFails = false := by
          by_contra hsf
          exact hns ⟨hlb, by simpa using hsf⟩
        simp [claimOnPress, henv, hns, hr, hlb, hs, Event.isMintCall]
      · simp [claimOnPress, henv, hns, hr, hlb, Event.isMintCall]
  · intro hu hns hread hrow hbal
    rcases henv : env.user with _ | u
    · exact absurd henv hu
    · have hlb : ¬ (0 < localBalance env) := by
        intro hpos
        have hs : env.syncFails = false := by
          by_cases h : env.syncFails = true
          · exact absurd ⟨hpos, h⟩ hns
          · simpa using h
        have : remoteAfterSync env = some (localBalance env) := by
          simp [remoteAfterSync, hpos, hrow, hs]
        exact absurd hpos (not_lt.mpr (hbal _ this))
      have hpre : remoteAfterSync env = env.remoteBalance := by
        simp [remoteAfterSync, hlb]
      rcases hcase : env.remoteBalance with _ | b
      · simp [claimOnPress, henv, hns, hread, hrow, hlb, hpre, hcase,
          Event.isMintCall]
      · have hble : b ≤ 0 := hbal b (hpre.trans hcase)
        simp [claimOnPress, henv, hns, hread, hrow, hlb, hpre, hcase, hble,
          Event.isMintCall]
  · intro b hu hns hread hrow hbal hpos hchain
    rcases henv : env.user with _ | u
    · exact absurd henv hu
    · have hnr : ¬(env.readFails = true ∨ env.rowExists = false) := by
        simp [hread, hrow]
      have hnb : ¬ b ≤ 0 := not_le.mpr hpos
      by_cases hlb : 0 < localBalance env
      · have hs : env.syncFails = false := by
          by_contra hsf
          exact hns ⟨hlb, by simpa using hsf⟩
        simp [claimOnPress, henv, hns, hnr, hbal, hnb, hchain, hs, hlb,
          Event.isMintCall]
      · simp [claimOnPress, henv, hns, hnr, hbal, hnb, hchain, hlb,
          Event.isMintCall]
  · intro b hu hs hread hrow hbal hpos hchain hm
    rcases henv : env.user with _ | u
    · exact absurd henv hu
    · have hns : ¬(0 < localBalance env ∧ env.syncFails = true) := by simp [hs]
      have hnr : ¬(env.readFails = true ∨ env.rowExists = false) := by
        simp [hread, hrow]
      have hnb : ¬ b ≤ 0 := not_le.mpr hpos
      by_cases hlb : 0 < localBalance env <;>
        simp [claimOnPress, henv, hns, hnr, hbal, hnb, hchain, hm, hs, hlb,
          Event.isMintCall]
  · intro b hu hs hread hrow hbal hpos hchain hm hzr
    rcases henv : env.user with _ | u
    · exact absurd henv hu
    · have hns : ¬(0 < localBalance env ∧ env.syncFails = true) := by simp [hs]
      have hnr : ¬(env.readFails = true ∨ env.rowExists = false) := by
        simp [hread, hrow]
      have hnb : ¬ b ≤ 0 := not_le.mpr hpos
      by_cases hlb : 0 < localBalance env <;>
        simp [claimOnPress, henv, hns, hnr, hbal, hnb, hchain, hm, hzr, hs,
          hlb, Event.isMintCall]
  · intro herr
    rcases henv : env.user with _ | u
    · simp [claimOnPress, henv]
    · rcases Bool.eq_false_or_eq_true env.syncFails with hsf | hsf
      all_goals
        by_cases hns : 0 < localBalance env ∧ env.syncFails = true
      · simp [claimOnPress, henv, hns]
      · by_cases hr : env.readFails = true ∨ env.rowExists = false
        · by_cases hlb : 0 < localBalance env <;>
            simp [claimOnPress, henv, hns, hr, hlb, hsf]
        · rcases hrem : remoteAfterSync env with _ | b
          · by_cases hlb : 0 < localBalance env <;>
              simp [claimOnPress, henv, hns, hr, hrem, hlb, hsf]
          · by_cases hb : b ≤ 0
            · by_cases hlb : 0 < localBalance env <;>
                simp [claimOnPress, henv, hns, hr, hrem, hb, hlb, hsf]
            · by_cases hc : env.cryptoChain ≠ "Base"
              · by_cases hlb : 0 < localBalance env <;>
                  simp [claimOnPress, henv, hns, hr, hrem, hb, hc, hlb, hsf]
              · by_cases hm : env.mintFails = true
                · by_cases hlb : 0 < localBalance env <;>
                    simp [claimOnPress, henv, hns, hr, hrem, hb, hc, hm, hlb,
                      hsf]
                · by_cases hzr : env.zeroRemoteFails = true
                  · by_cases hlb : 0 < localBalance env <;>
                      simp [claimOnPress, henv, hns, hr, hrem, hb, hc, hm, hzr,
                        hlb, hsf]
                  · by_cases hzl : env.zeroLocalFails = true
                    · by_cases hlb : 0 < localBalance env <;>
                        simp [claimOnPress, henv, hns, hr, hrem, hb, hc, hm,
                          hzr, hzl, hlb, hsf]
                    · by_cases hlb : 0 < localBalance env
                      · exact absurd ⟨hlb, hsf⟩ hns
                      · exact absurd (by
                          simp [claimOnPress, henv, hns, hr, hrem, hb, hc, hm,
                            hzr, hzl, hlb, hsf]) herr
      · simp [claimOnPress, henv, hns]
      · by_cases hr : env.readFails = true ∨ env.rowExists = false
        · by_cases hlb : 0 < localBalance env <;>
            simp [claimOnPress, henv, hns, hr, hlb, hsf]
        · rcases hrem : remoteAfterSync env with _ | b
          · by_cases hlb : 0 < localBalance env <;>
              simp [claimOnPress, henv, hns, hr, hrem, hlb, hsf]
          · by_cases hb : b ≤ 0
            · by_cases hlb : 0 < localBalance env <;>
                simp [claimOnPress, henv, hns, hr, hrem, hb, hlb, hsf]
            · by_cases hc : env.cryptoChain ≠ "Base"
              · by_cases hlb : 0 < localBalance env <;>
                  simp [claimOnPress, henv, hns, hr, hrem, hb, hc, hlb, hsf]
              · by_cases hm : env.mintFails = true
                · by_cases hlb : 0 < localBalance env <;>
                    simp [claimOnPress, henv, hns, hr, hrem, hb, hc, hm, hlb,
                      hsf]
                · by_cases hzr : env.zeroRemoteFails = true
                  · by_cases hlb : 0 < localBalance env <;>
                      simp [claimOnPress, henv, hns, hr, hrem, hb, hc, hm, hzr,
                        hlb, hsf]
                  · by_cases hzl : env.zeroLocalFails = true
                    · by_cases hlb : 0 < localBalance env <;>
                        simp [claimOnPress, henv, hns, hr, hrem, hb, hc, hm,
                          hzr, hzl, hlb, hsf]
                    · by_cases hlb : 0 < localBalance env <;>
                        exact absurd (by
                          simp [claimOnPress, henv, hns, hr, hrem, hb, hc, hm,
                            hzr, hzl, hlb, hsf]) herr

/-- Witness for C5 at a mint failure with balance 12.34. -/
theorem claim_short_circuit_witness :
    remoteAfterSync claimMintFailEnv = some (1234/100) ∧
    ((claimOnPress claimMintFailEnv).events.filter Event.isMintCall =
       [Event.mintCall claimMintFailEnv.walletAddress (1234/100)] ∧
     Event.remoteZero ∉ (claimOnPress claimMintFailEnv).events ∧
     Event.localZero ∉ (claimOnPress claimMintFailEnv).events ∧
     (claimOnPress claimMintFailEnv).remoteBalance =
       remoteAfterSync claimMintFailEnv ∧
     (claimOnPress claimMintFailEnv).localStored =
       claimMintFailEnv.localStored ∧
     (claimOnPress claimMintFailEnv).error = some ClaimErr.mintErr) :=
  have hbal : remoteAfterSync claimMintFailEnv = some (1234/100) := by
    norm_num [remoteAfterSync, claimMintFailEnv, localBalance]
  ⟨hbal, (claim_short_circuit claimMintFailEnv).2.2.2.2.2.1 (1234/100)
    (by simp [claimMintFailEnv]) rfl rfl rfl hbal (by norm_num) rfl rfl⟩

theorem claimUI_invariant (s : ClaimUIState) (h : ClaimUIReachable s) :
    s.inFlight ≤ 1 ∧ (s.claiming = false → s.inFlight = 0) := by
  induction h with
  | init => exact ⟨by simp, fun _ => rfl⟩
  | step hr hstep ih =>
      cases hstep with
      | press hc =>
          refine ⟨by simp [ih.2 hc], fun h' => by simp at h'⟩
      | pressDisabled hc => exact ih
      | finish hf =>
          have h1 := ih.1
          refine ⟨by simp; omega, fun _ => by simp; omega⟩

/-- Claim C6: in every state reachable by presses and completions from
the initial idle screen, at most one claim handler invocation (and hence
at most one mint call) is in flight: the `claiming` busy flag makes a
press while a previous claim is running a no-op. -/
theorem claim_reentrancy (s : ClaimUIState) (h : ClaimUIReachable s) :
    s.inFlight ≤ 1 := (claimUI_invariant s h).1

/-- Witness for C6 at the state reached by one press. -/
theorem claim_reentrancy_witness :
    ClaimUIReachable { claiming := true, inFlight := 1 } ∧
    ({ claiming := true, inFlight := 1 } : ClaimUIState).inFlight ≤ 1 :=
  have hr : ClaimUIReachable { claiming := true, inFlight := 1 } :=
    ClaimUIReachable.step ClaimUIReachable.init
      (ClaimUIStep.press { claiming := false, inFlight := 0 } rfl)
  ⟨hr, claim_reentrancy _ hr⟩

theorem tickIncrement_range (r : ℚ) (h0 : 0 ≤ r) (h1 : r < 1) :
    1/100 ≤ tickIncrement r ∧ tickIncrement r < 1/10 := by
  unfold tickIncrement
  constructor
  · nlinarith
  · nlinarith

theorem tickBalance_mono (b d : ℚ) (hd : 1/100 ≤ d) : b ≤ tickBalance b d := by
  have habs := abs_sub_round ((b + d) * 100)
  rw [abs_le] at habs
  unfold tickBalance
  rw [le_div_iff₀ (by norm_num : (0:ℚ) < 100)]
  linarith [habs.1, habs.2]

theorem runTicks_eq_foldl (b : ℚ) (rs : List ℚ) :
    runTicks b rs =
      List.foldl (fun acc r => round2 (acc + tickIncrement r)) b rs := by
  induction rs generalizing b with
  | nil => rfl
  | cons r rs ih =>
      simp only [runTicks, List.foldl_cons]
      rw [ih]
      rfl

theorem runTicks_mono (b : ℚ) (rs : List ℚ)
    (h : ∀ r ∈ rs, 0 ≤ r ∧ r < 1) : b ≤ runTicks b rs := by
  induction rs generalizing b with
  | nil => simp [runTicks]
  | cons r rs ih =>
      have hr := h r (List.mem_cons_self r rs)
      have h1 := (tickIncrement_range r hr.1 hr.2).1
      calc b ≤ tickBalance b (tickIncrement r) := tickBalance_mono _ _ h1
        _ ≤ runTicks (tickBalance b (tickIncrement r)) rs :=
          ih (tickBalance b (tickIncrement r))
            (fun x hx => h x (List.mem_cons_of_mem r hx))

/-- Claim C7: for every starting balance and every sequence of
`Math.random()` draws in `[0, 1)`, each tick's increment lies in
`[0.01, 0.1)`, the balance after the ticks equals the result of the
successive updates `b := round2 (b + d)`, and the balance is monotonically
non-decreasing across the ticks. -/
theorem accumulator_ticks (b : ℚ) (rs : List ℚ)
    (h : ∀ r ∈ rs, 0 ≤ r ∧ r < 1) :
    (∀ r ∈ rs, 1/100 ≤ tickIncrement r ∧ tickIncrement r < 1/10) ∧
    runTicks b rs =
      List.foldl (fun acc r => round2 (acc + tickIncrement r)) b rs ∧
    b ≤ runTicks b rs :=
  ⟨fun r hr => tickIncrement_range r (h r hr).1 (h r hr).2,
   runTicks_eq_foldl b rs, runTicks_mono b rs h⟩

/-- Witness for C7 at one tick with draw one half. -/
theorem accumulator_ticks_witness :
    (∀ r ∈ [(1:ℚ)/2], 0 ≤ r ∧ r < 1) ∧
    ((∀ r ∈ [(1:ℚ)/2], 1/100 ≤ tickIncrement r ∧ tickIncrement r < 1/10) ∧
     runTicks 0 [(1:ℚ)/2] =
       List.foldl (fun acc r => round2 (acc + tickIncrement r)) 0 [(1:ℚ)/2] ∧
     (0:ℚ) ≤ runTicks 0 [(1:ℚ)/2]) :=
  have h : ∀ r ∈ [(1:ℚ)/2], 0 ≤ r ∧ r < 1 := by
    intro r hr
    rw [List.mem_singleton] at hr
    subst hr
    norm_num
  ⟨h, accumulator_ticks 0 [(1:ℚ)/2] h⟩

/-- Claim C8 (refuting theorem): the two screens do not agree on the
storage keys.  EditProfile's `STORAGE_KEYS` values differ from the
Rewards ones its comment says they come from, so a location-sharing flag
persisted as false by the Rewards screen is read back as the default true
by the EditProfile startup load. -/
theorem storage_keys_mismatch :
    EditProfile.STORAGE_KEYS_LOCATION_SHARING ≠
      Rewards.STORAGE_KEYS_LOCATION_SHARING ∧
    EditProfile.STORAGE_KEYS_CAPT_BALANCE ≠ Rewards.STORAGE_KEYS_CAPT_BALANCE ∧
    editProfileLoadLocationSharing
      (rewardsSaveLocationSharing (fun _ => none) false) = true := by
  refine ⟨by decide, by decide, ?_⟩
  rfl

/-- Claim C9: a save whose trimmed username is empty fails with the
validation error and performs no upsert; a save with a non-empty trimmed
username, an authenticated user and a successful upsert performs exactly
one upsert of all form fields keyed by the user id, and only after it an
email change request when the form email differs from the authenticated
one. -/
theorem updateProfile_validation (env : UpdateEnv) :
    (trimString env.form.username = "" →
       updateProfile env =
         { events := [], error := some UpdateErr.validationErr,
           success := false }) ∧
    (trimString env.form.username ≠ "" →
       ∀ uid uemail, env.user = some (uid, uemail) →
         env.upsertFails = false →
         (updateProfile env).events =
           UpdateEvent.upsert uid env.form ::
             (if env.form.email ≠ uemail then
                [UpdateEvent.emailChangeRequest env.form.email]
              else [])) := by
  constructor
  · intro hv
    simp [updateProfile, hv]
  · intro hv uid uemail hu hup
    by_cases hem : env.form.email ≠ uemail
    · by_cases hef : env.emailUpdateFails = true <;>
        simp [updateProfile, hv, hu, hup, hem, hef]
    · simp [updateProfile, hv, hu, hup, hem]

/-- Witness for C9 at a whitespace-only username. -/
theorem updateProfile_validation_witness :
    trimString updateEnvBlank.form.username = "" ∧
    updateProfile updateEnvBlank =
      { events := [], error := some UpdateErr.validationErr,
        success := false } :=
  have hv : trimString updateEnvBlank.form.username = "" := by decide
  ⟨hv, (updateProfile_validation updateEnvBlank).1 hv⟩

theorem claimOnPress_unsupported_imp (env : ClaimEnv)
    (heq : (claimOnPress env).error = some ClaimErr.unsupportedChain) :
    env.cryptoChain ≠ "Base" := by
  simp only [claimOnPress] at heq
  repeat' split at heq
  all_goals simp_all

/-- Claim C10: every value the `cryptoChain` state can reach is `"Base"`
(it is initialized to `"Base"` and every assignment re-sets it to
`"Base"`), so no claim invocation running over a reachable chain value
can surface the UnsupportedChain error. -/
theorem claim_no_unsupported_chain (env : ClaimEnv)
    (h : CryptoChainReachable env.cryptoChain) :
    env.cryptoChain = "Base" ∧
    (claimOnPress env).error ≠ some ClaimErr.unsupportedChain := by
  have hball : ∀ s, CryptoChainReachable s → s = "Base" := by
    intro s hs
    cases hs <;> rfl
  have hb : env.cryptoChain = "Base" := hball _ h
  exact ⟨hb, fun heq => claimOnPress_unsupported_imp env heq hb⟩

/-- Witness for C10 at the initial chain value. -/
theorem claim_no_unsupported_chain_witness :
    CryptoChainReachable claimSuccessEnv.cryptoChain ∧
    (claimSuccessEnv.cryptoChain = "Base" ∧
     (claimOnPress claimSuccessEnv).error ≠ some ClaimErr.unsupportedChain) :=
  ⟨CryptoChainReachable.init,
   claim_no_unsupported_chain claimSuccessEnv CryptoChainReachable.init⟩

end CapturGo
